import Mathlib

/-!
Shallow embedding of the training agent `HighToLow.py` of the
image-super-resolution repository: the tensor/value model, the training
step (generator update followed by discriminator update), the checkpoint
store, batch transfer, the epoch loop and the run/finalize lifecycle,
together with theorems checking the specification's claims against the
code.

Scalars are rationals: the loss criterions and the two networks are
black-box function parameters, so no floating-point behaviour is modelled.
Autograd is modelled at the level the claims need: each tensor value
carries a flag saying whether it is attached to the computation graph
(`detach` clears it), and each step records an event trace of the
forward calls, backward passes and optimizer steps in program order.
-/

namespace HighToLow

/-- Scalars of the embedding: tensor entries and loss values are rationals. -/
abbrev Scalar := ℚ

/-- A one-dimensional tensor of per-sample values; its length is the batch
dimension `size(0)`. -/
abbrev Vec := List Scalar

/-- Batch mean `t.mean(0, keepdim=True)` of a vector of per-sample scores;
the keepdim result has one entry and broadcasts as a single scalar. -/
def batchMean (v : Vec) : Scalar := v.sum / v.length

/-- Broadcast subtraction of a (batch-mean) scalar from every entry. -/
def subScalar (v : Vec) (c : Scalar) : Vec := v.map (fun x => x - c)

/-- In-place `fill_(c)`: every entry replaced by `c`, only the shape
of the original tensor survives. -/
def fillWith (v : Vec) (c : Scalar) : Vec := v.map (fun _ => c)

/-- Field `self.real_label = 1` set in `HighToLow.__init__` (line 45). -/
def real_label : Scalar := 1

/-- Field `self.fake_label = -1` set in `HighToLow.__init__` (line 46). -/
def fake_label : Scalar := -1

/-- A tensor value together with its autograd attachment: `tracked = false`
means the value is detached, so no gradient flows to its producers. -/
structure TVal where
  val : Vec
  tracked : Bool
  deriving DecidableEq, Repr

/-- Torch `detach`: same value, removed from the computation graph. -/
def TVal.detach (t : TVal) : TVal := ⟨t.val, false⟩

/-- One `data_dict` yielded by the data loader: the low-resolution,
high-resolution and high-to-low (downsampled) tensors of one batch. -/
structure BatchRec where
  lr : Vec
  hr : Vec
  hlr : Vec
  deriving DecidableEq, Repr

/-- The external collaborators consumed by the agent: the two networks,
the two loss criterions, the dataset (the loader rebuilds the same finite
batch sequence each epoch) and the Gaussian sampler `torch.randn`,
modelled as a deterministic stream indexed by batch index and length. -/
structure Env where
  netG : Vec → Vec → Vec
  netD : Vec → Vec
  criterion_GAN : Vec → Vec → Scalar
  criterion_MSE : Vec → Vec → Scalar
  batches : List BatchRec
  randn_y : Nat → Nat → Vec
  randn_noise : Nat → Nat → Vec

/-- Low-level autograd and optimizer events of one training step, recorded
in program order.  A `callD` event records the discriminator input and
whether that input is attached to the generator's graph. -/
inductive Event
  | zeroGradG
  | zeroGradD
  | callG (high noise : Vec)
  | callD (input : Vec) (inputTracked : Bool)
  | backwardOp (retain : Bool)
  | stepG
  | stepD
  deriving DecidableEq, Repr

/-- Everything one generator-plus-discriminator update produces
(`train_one_epoch`, lines 170-213): the generated batch, the four
discriminator outputs, the six scalar losses and the event trace. -/
structure GDResult where
  gen_lr : TVal
  pred_real_G : TVal
  pred_fake_G : TVal
  pred_real_D : TVal
  pred_fake_D : TVal
  loss_pixel : Scalar
  loss_G_GAN : Scalar
  loss_G : Scalar
  loss_D_real : Scalar
  loss_D_fake : Scalar
  loss_D : Scalar
  events : List Event
  deriving DecidableEq, Repr

/-- Generator and discriminator update of one batch, embedded from
`train_one_epoch` lines 170-213.  The data inputs and `y` are `Variable`s
built by `to_var` (`requires_grad` false, hence `inputTracked = false` in
their `callD` events); `noise` is the fresh draw of line 173.  The `y`
buffer is refilled in place exactly as in lines 185, 202 and 207. -/
def gdUpdate (env : Env) (alpha beta : Scalar)
    (data_input_high data_input_high_low : Vec) (y : Vec) (noise : Vec) : GDResult :=
  let gen_lr : TVal := ⟨env.netG data_input_high noise, true⟩
  let loss_pixel := env.criterion_MSE gen_lr.val data_input_high_low
  let pred_real : TVal := TVal.detach ⟨env.netD data_input_high, true⟩
  let pred_fake : TVal := ⟨env.netD gen_lr.val, true⟩
  let y1 := fillWith y real_label
  let loss_G_GAN := env.criterion_GAN (subScalar pred_fake.val (batchMean pred_real.val)) y1
  let loss_G := beta * loss_G_GAN + alpha * loss_pixel
  let pred_real2 : TVal := ⟨env.netD data_input_high, true⟩
  let y2 := fillWith y1 real_label
  let loss_D_real := env.criterion_GAN (subScalar pred_real2.val (batchMean pred_fake.val)) y2
  let pred_fake2 : TVal := ⟨env.netD (TVal.detach gen_lr).val, true⟩
  let y3 := fillWith y2 fake_label
  let loss_D_fake := env.criterion_GAN (subScalar pred_fake2.val (batchMean pred_real2.val)) y3
  let loss_D := (loss_D_real + loss_D_fake) / 2
  { gen_lr := gen_lr
    pred_real_G := pred_real
    pred_fake_G := pred_fake
    pred_real_D := pred_real2
    pred_fake_D := pred_fake2
    loss_pixel := loss_pixel
    loss_G_GAN := loss_G_GAN
    loss_G := loss_G
    loss_D_real := loss_D_real
    loss_D_fake := loss_D_fake
    loss_D := loss_D
    events := [Event.zeroGradG,
               Event.callG data_input_high noise,
               Event.callD data_input_high false,
               Event.callD gen_lr.val gen_lr.tracked,
               Event.backwardOp true,
               Event.stepG,
               Event.zeroGradD,
               Event.callD data_input_high false,
               Event.backwardOp true,
               Event.callD (TVal.detach gen_lr).val (TVal.detach gen_lr).tracked,
               Event.backwardOp false,
               Event.stepD] }

/-- Result vocabulary of the specification's Training Step (spec section 4.4). -/
structure SpecStepOut where
  generated_low_res : TVal
  pred_real_ref : TVal
  pred_fake_gen : TVal
  pred_real_disc : TVal
  pred_fake_disc : TVal
  pixel_loss : Scalar
  adv_loss : Scalar
  generator_loss : Scalar
  disc_loss_real : Scalar
  disc_loss_fake : Scalar
  discriminator_loss : Scalar
  events : List Event
  deriving DecidableEq, Repr

/-- Training Step written from the specification's words (section 4.4,
steps 2 and 3): generator phase with `pred_real` taken gradient-disabled,
relativistic adversarial loss against the `real_label` target of shape
`(N,)`, total `beta * adv + alpha * pixel` backpropagated with retention;
then discriminator phase reusing the stale `pred_fake`, recomputing
`pred_fake` on the detached generator output against `fake_label`, and
averaging the two discriminator losses. -/
def specTrainingStep (env : Env) (alpha beta : Scalar)
    (high_res downsampled_high_res : Vec) (N : Nat) (noise : Vec) : SpecStepOut :=
  let generated_low_res : TVal := ⟨env.netG high_res noise, true⟩
  let pixel_loss := env.criterion_MSE generated_low_res.val downsampled_high_res
  let pred_real : TVal := ⟨env.netD high_res, false⟩
  let pred_fake : TVal := ⟨env.netD generated_low_res.val, true⟩
  let adv_loss := env.criterion_GAN (subScalar pred_fake.val (batchMean pred_real.val))
    (List.replicate N real_label)
  let generator_loss := beta * adv_loss + alpha * pixel_loss
  let pred_real2 : TVal := ⟨env.netD high_res, true⟩
  let disc_loss_real := env.criterion_GAN (subScalar pred_real2.val (batchMean pred_fake.val))
    (List.replicate N real_label)
  let pred_fake2 : TVal := ⟨env.netD (TVal.detach generated_low_res).val, true⟩
  let disc_loss_fake := env.criterion_GAN (subScalar pred_fake2.val (batchMean pred_real2.val))
    (List.replicate N fake_label)
  let discriminator_loss := (disc_loss_real + disc_loss_fake) / 2
  { generated_low_res := generated_low_res
    pred_real_ref := pred_real
    pred_fake_gen := pred_fake
    pred_real_disc := pred_real2
    pred_fake_disc := pred_fake2
    pixel_loss := pixel_loss
    adv_loss := adv_loss
    generator_loss := generator_loss
    disc_loss_real := disc_loss_real
    disc_loss_fake := disc_loss_fake
    discriminator_loss := discriminator_loss
    events := [Event.zeroGradG,
               Event.callG high_res noise,
               Event.callD high_res false,
               Event.callD generated_low_res.val generated_low_res.tracked,
               Event.backwardOp true,
               Event.stepG,
               Event.zeroGradD,
               Event.callD high_res false,
               Event.backwardOp true,
               Event.callD (TVal.detach generated_low_res).val (TVal.detach generated_low_res).tracked,
               Event.backwardOp false,
               Event.stepD] }

/-- Helper: `fill_` makes a constant vector of the original length. -/
theorem fillWith_eq_replicate (v : Vec) (c : Scalar) :
    fillWith v c = List.replicate v.length c := by
  induction v with
  | nil => rfl
  | cons a t ih =>
    simp only [fillWith, List.map_cons, List.length_cons, List.replicate_succ]
    simp [fillWith] at ih
    simp [ih]

/-- C1: the training step computes the generator and discriminator update
exactly as the specification states it — same generated batch, same four
discriminator outputs with the same graph attachment (the reference
`pred_real` gradient-disabled, the generator-phase `pred_fake` attached,
the recomputed `pred_fake` on the detached generator output), the same six
loss values (`loss_G = beta * adv + alpha * pixel`, `loss_D_real` against
the stale `pred_fake` mean, `loss_D = (real + fake) / 2`), and the same
order of gradient clearing, forward calls, retained backward passes and
optimizer steps. -/
theorem training_step_matches_spec (env : Env) (alpha beta : Scalar)
    (data_input_high data_input_high_low y noise : Vec) :
    (gdUpdate env alpha beta data_input_high data_input_high_low y noise).gen_lr
        = (specTrainingStep env alpha beta data_input_high data_input_high_low y.length noise).generated_low_res ∧
    (gdUpdate env alpha beta data_input_high data_input_high_low y noise).pred_real_G
        = (specTrainingStep env alpha beta data_input_high data_input_high_low y.length noise).pred_real_ref ∧
    (gdUpdate env alpha beta data_input_high data_input_high_low y noise).pred_fake_G
        = (specTrainingStep env alpha beta data_input_high data_input_high_low y.length noise).pred_fake_gen ∧
    (gdUpdate env alpha beta data_input_high data_input_high_low y noise).pred_real_D
        = (specTrainingStep env alpha beta data_input_high data_input_high_low y.length noise).pred_real_disc ∧
    (gdUpdate env alpha beta data_input_high data_input_high_low y noise).pred_fake_D
        = (specTrainingStep env alpha beta data_input_high data_input_high_low y.length noise).pred_fake_disc ∧
    (gdUpdate env alpha beta data_input_high data_input_high_low y noise).loss_pixel
        = (specTrainingStep env alpha beta data_input_high data_input_high_low y.length noise).pixel_loss ∧
    (gdUpdate env alpha beta data_input_high data_input_high_low y noise).loss_G_GAN
        = (specTrainingStep env alpha beta data_input_high data_input_high_low y.length noise).adv_loss ∧
    (gdUpdate env alpha beta data_input_high data_input_high_low y noise).loss_G
        = (specTrainingStep env alpha beta data_input_high data_input_high_low y.length noise).generator_loss ∧
    (gdUpdate env alpha beta data_input_high data_input_high_low y noise).loss_D_real
        = (specTrainingStep env alpha beta data_input_high data_input_high_low y.length noise).disc_loss_real ∧
    (gdUpdate env alpha beta data_input_high data_input_high_low y noise).loss_D_fake
        = (specTrainingStep env alpha beta data_input_high data_input_high_low y.length noise).disc_loss_fake ∧
    (gdUpdate env alpha beta data_input_high data_input_high_low y noise).loss_D
        = (specTrainingStep env alpha beta data_input_high data_input_high_low y.length noise).discriminator_loss ∧
    (gdUpdate env alpha beta data_input_high data_input_high_low y noise).events
        = (specTrainingStep env alpha beta data_input_high data_input_high_low y.length noise).events := by
  simp [gdUpdate, specTrainingStep, TVal.detach, fillWith_eq_replicate, fillWith]

/-- Number of discriminator forward calls recorded in a trace. -/
def countCallD (evs : List Event) : Nat :=
  evs.countP (fun e => match e with | Event.callD _ _ => true | _ => false)

/-- Number of generator forward calls recorded in a trace. -/
def countCallG (evs : List Event) : Nat :=
  evs.countP (fun e => match e with | Event.callG _ _ => true | _ => false)

/-- Concrete instantiation of the external collaborators, for evaluating
the embedding at explicit inputs. -/
def envEx : Env where
  netG := fun h _ => h
  netD := fun v => v
  criterion_GAN := fun _ _ => 0
  criterion_MSE := fun _ _ => 0
  batches := []
  randn_y := fun _ n => List.replicate n 0
  randn_noise := fun _ n => List.replicate n 0

/-- C2 counterexample: on a concrete batch of size 1 the training step
performs four discriminator forward calls, not three as the claim states
(the claim's own breakdown — detached reference, fake in the generator
phase, real and fake in the discriminator phase — already lists four). -/
theorem discriminator_calls_not_three :
    countCallD (gdUpdate envEx 1 1 [1] [1] [0] [0]).events = 4 ∧
    countCallD (gdUpdate envEx 1 1 [1] [1] [0] [0]).events ≠ 3 := by
  constructor
  · rfl
  · decide

/-- C2 amended: for every batch of size at least 1 the training step calls
the discriminator exactly four times — an even, bounded number: once as a
detached reference, once on the fake in the generator phase, once on the
real and once on the detached fake in the discriminator phase — and the
generator exactly once. -/
theorem discriminator_four_generator_one (env : Env) (alpha beta : Scalar)
    (data_input_high data_input_high_low y noise : Vec)
    (hN : 1 ≤ data_input_high.length) :
    countCallD (gdUpdate env alpha beta data_input_high data_input_high_low y noise).events = 4 ∧
    Even (countCallD (gdUpdate env alpha beta data_input_high data_input_high_low y noise).events) ∧
    countCallG (gdUpdate env alpha beta data_input_high data_input_high_low y noise).events = 1 := by
  have h4 : countCallD (gdUpdate env alpha beta data_input_high data_input_high_low y noise).events = 4 := by
    simp [gdUpdate, countCallD, List.countP_cons]
  have h1 : countCallG (gdUpdate env alpha beta data_input_high data_input_high_low y noise).events = 1 := by
    simp [gdUpdate, countCallG, List.countP_cons]
  exact ⟨h4, by rw [h4]; exact ⟨2, by norm_num⟩, h1⟩

/-- C2 amended, witness at a concrete batch of size 1. -/
theorem discriminator_four_generator_one_witness :
    1 ≤ ([(1 : Scalar)]).length ∧
    (countCallD (gdUpdate envEx 2 3 [1] [1] [0] [0]).events = 4 ∧
     Even (countCallD (gdUpdate envEx 2 3 [1] [1] [0] [0]).events) ∧
     countCallG (gdUpdate envEx 2 3 [1] [1] [0] [0]).events = 1) :=
  ⟨by decide, discriminator_four_generator_one envEx 2 3 [1] [1] [0] [0] (by decide)⟩

/-- The two compute devices the agent can select. -/
inductive Device
  | cpu
  | cuda
  deriving DecidableEq, Repr

/-- Python-level exceptions the embedded code can raise. -/
inductive PyError
  | unpicklingError
  | attributeError
  | cudaRuntimeError
  deriving DecidableEq, Repr

/-- A torch tensor at the lifecycle level: its data plus the device it
lives on. -/
structure PyTensor where
  data : Vec
  device : Device
  deriving DecidableEq, Repr

/-- Tensor `size(0)`: the batch dimension. -/
def PyTensor.size0 (t : PyTensor) : Nat := t.data.length

/-- Torch `.cuda()`: relocate the tensor to the CUDA device; raises a
RuntimeError when no CUDA device is available. -/
def tensorCuda (cudaAvailable : Bool) (t : PyTensor) : Except PyError PyTensor :=
  if cudaAvailable then Except.ok { t with device := Device.cuda } else Except.error PyError.cudaRuntimeError

/-- Method `to_var` (lines 140-144): wraps the batch in a `Variable` moved
by an unconditional `.cuda()` call and returns it with `size(0)`. -/
def to_var (cudaAvailable : Bool) (data : PyTensor) : Except PyError (PyTensor × Nat) := do
  let real_cpu := data
  let batchsize := real_cpu.size0
  let inp ← tensorCuda cudaAvailable real_cpu
  pure (inp, batchsize)

/-- Device selection of `__init__` (lines 49-71):
`self.cuda = is_cuda & config.cuda`, CUDA device if set, CPU otherwise. -/
def selectedDevice (is_cuda config_cuda : Bool) : Device :=
  if is_cuda && config_cuda then Device.cuda else Device.cpu

/-- C9: `to_var` does not relocate batches to the device selected at
startup — it always calls `.cuda()`.  With CUDA available but CPU selected
(`config.cuda = false`) the batch lands on CUDA, not the selected device;
with CUDA unavailable the selected device is CPU, which is available, yet
`to_var` raises a RuntimeError. -/
theorem to_var_ignores_selected_device :
    selectedDevice true false = Device.cpu ∧
    to_var true ⟨[5], Device.cpu⟩ = Except.ok (⟨[5], Device.cuda⟩, 1) ∧
    selectedDevice false false = Device.cpu ∧
    to_var false ⟨[5], Device.cpu⟩ = Except.error PyError.cudaRuntimeError := by
  refine ⟨rfl, rfl, rfl, rfl⟩

/-- The checkpoint blob of `save_checkpoint` (lines 107-115): counters,
the two state dicts, the two optimizer states and the seed.  Network
parameters and optimizer states are abstract snapshot values. -/
structure Checkpoint where
  epoch : Nat
  iteration : Nat
  G_state_dict : Scalar
  G_optimizer : Scalar
  D_state_dict : Scalar
  D_optimizer : Scalar
  manual_seed : Nat
  deriving DecidableEq, Repr

/-- The mutable fields of the agent that the checkpoint logic and the
epoch loop touch.  `dataloader` is the optional `self.dataloader`
attribute read by `finalize`. -/
structure AgentState where
  current_epoch : Nat
  current_iteration : Nat
  manual_seed : Nat
  netG_params : Scalar
  netD_params : Scalar
  optimG_state : Scalar
  optimD_state : Scalar
  dataloader : Option Unit
  deriving DecidableEq, Repr

/-- The configuration fields the embedded code reads. -/
structure Config where
  max_epoch : Nat
  checkpoint_dir : String
  checkpoint_file : String
  alpha : Scalar
  beta : Scalar
  deriving Repr

/-- The `state` dict assembled by `save_checkpoint` (lines 107-115). -/
def checkpointOf (st : AgentState) : Checkpoint where
  epoch := st.current_epoch
  iteration := st.current_iteration
  G_state_dict := st.netG_params
  G_optimizer := st.optimG_state
  D_state_dict := st.netD_params
  D_optimizer := st.optimD_state
  manual_seed := st.manual_seed

/-- The assignments of `load_checkpoint` on a successful read
(lines 92-98): install every checkpoint field into the live agent. -/
def applyCheckpoint (st : AgentState) (c : Checkpoint) : AgentState :=
  { st with
    current_epoch := c.epoch
    current_iteration := c.iteration
    netG_params := c.G_state_dict
    optimG_state := c.G_optimizer
    netD_params := c.D_state_dict
    optimD_state := c.D_optimizer
    manual_seed := c.manual_seed }

/-- The checkpoint directory as a mapping from file names to blobs. -/
abbrev Store := String → Option Checkpoint

/-- An empty checkpoint directory. -/
def emptyStore : Store := fun _ => none

/-- `torch.save`: (over)write the blob under the given name. -/
def storeWrite (s : Store) (k : String) (c : Checkpoint) : Store :=
  fun q => if q = k then some c else s q

/-- Read the blob under a name, if present. -/
def storeRead (s : Store) (k : String) : Option Checkpoint := s k

/-- `shutil.copyfile`: duplicate the blob under `src` to `dst`
(`save_checkpoint` only copies a file it has just written, so the
missing-source branch is never taken there). -/
def copyfile (s : Store) (src dst : String) : Store :=
  match s src with
  | some c => storeWrite s dst c
  | none => s

/-- The fixed best-checkpoint name of line 122. -/
def best_name : String := "High_to_Low_model_best.pth.tar"

/-- `save_checkpoint` (lines 106-122): serialize the state under
`checkpoint_dir ++ file_name`, and when `is_best`, copy that artifact to
the fixed best name. -/
def save_checkpoint (cfg : Config) (st : AgentState) (store : Store)
    (file_name : String) (is_best : Bool) : Store :=
  let state := checkpointOf st
  let store1 := storeWrite store (cfg.checkpoint_dir ++ file_name) state
  if is_best then
    copyfile store1 (cfg.checkpoint_dir ++ file_name) (cfg.checkpoint_dir ++ best_name)
  else store1

/-- The possible outcomes of `torch.load(filename)` inside
`load_checkpoint`: a checkpoint, a missing file (FileNotFoundError, an
OSError), a permission failure (PermissionError, also an OSError), or a
corrupt file (a deserialization error, not an OSError). -/
inductive ReadOutcome
  | found (c : Checkpoint)
  | fileNotFound
  | permissionDenied
  | corruptFile
  deriving DecidableEq, Repr

/-- `load_checkpoint` (lines 86-104): install the checkpoint on success;
the `except OSError` handler turns every OS-level failure — missing file
and permission failure alike — into a logged no-op, while a non-OSError
deserialization failure propagates to the caller. -/
def load_checkpoint (st : AgentState) (outcome : ReadOutcome) : Except PyError AgentState :=
  match outcome with
  | ReadOutcome.found c => Except.ok (applyCheckpoint st c)
  | ReadOutcome.fileNotFound => Except.ok st
  | ReadOutcome.permissionDenied => Except.ok st
  | ReadOutcome.corruptFile => Except.error PyError.unpicklingError

/-- The outcome `torch.load` produces against the modelled directory. -/
def readOutcome (store : Store) (filename : String) : ReadOutcome :=
  match store filename with
  | some c => ReadOutcome.found c
  | none => ReadOutcome.fileNotFound

/-- C4: saving and then loading under the same label round-trips — the
loaded checkpoint is exactly the saved one, and installing it reproduces
the epoch, iteration, seed, both networks' parameters and both optimizer
states of the state at save time. -/
theorem checkpoint_roundtrip (cfg : Config) (st st0 : AgentState) (store : Store) (label : String) :
    load_checkpoint st0
        (readOutcome (save_checkpoint cfg st store label false) (cfg.checkpoint_dir ++ label)) =
      Except.ok (applyCheckpoint st0 (checkpointOf st)) ∧
    (applyCheckpoint st0 (checkpointOf st)).current_epoch = st.current_epoch ∧
    (applyCheckpoint st0 (checkpointOf st)).current_iteration = st.current_iteration ∧
    (applyCheckpoint st0 (checkpointOf st)).manual_seed = st.manual_seed ∧
    (applyCheckpoint st0 (checkpointOf st)).netG_params = st.netG_params ∧
    (applyCheckpoint st0 (checkpointOf st)).netD_params = st.netD_params ∧
    (applyCheckpoint st0 (checkpointOf st)).optimG_state = st.optimG_state ∧
    (applyCheckpoint st0 (checkpointOf st)).optimD_state = st.optimD_state := by
  refine ⟨?_, rfl, rfl, rfl, rfl, rfl, rfl, rfl⟩
  simp [save_checkpoint, storeWrite, readOutcome, load_checkpoint, storeRead]

/-- A concrete agent state for counterexamples and witnesses. -/
def agentEx : AgentState where
  current_epoch := 3
  current_iteration := 7
  manual_seed := 42
  netG_params := 1
  netD_params := 2
  optimG_state := 3
  optimD_state := 4
  dataloader := none

/-- C5 counterexample: a permission failure is not a missing checkpoint
file, yet `load_checkpoint` swallows it and returns with the state
unchanged instead of surfacing a fatal error — `PermissionError` is an
`OSError`, so the `except OSError` handler catches it. -/
theorem permission_error_swallowed :
    load_checkpoint agentEx ReadOutcome.permissionDenied = Except.ok agentEx := rfl

/-- C5 amended: `load_checkpoint` returns without error with the state
unchanged exactly on the OS-level read failures — missing file and
permission failure alike; a corrupt-file deserialization failure is the
one that propagates, and a successful read installs the checkpoint. -/
theorem load_failure_policy (st : AgentState) (c : Checkpoint) :
    load_checkpoint st ReadOutcome.fileNotFound = Except.ok st ∧
    load_checkpoint st ReadOutcome.permissionDenied = Except.ok st ∧
    load_checkpoint st ReadOutcome.corruptFile = Except.error PyError.unpicklingError ∧
    load_checkpoint st (ReadOutcome.found c) = Except.ok (applyCheckpoint st c) :=
  ⟨rfl, rfl, rfl, rfl⟩

/-- A second concrete agent state, differing from `agentEx`. -/
def agentEx2 : AgentState := { agentEx with current_epoch := 4 }

/-- A concrete configuration. -/
def cfgEx : Config where
  max_epoch := 2
  checkpoint_dir := "ckpt/"
  checkpoint_file := "checkpoint.pth.tar"
  alpha := 1
  beta := 1

/-- C8 counterexample: two successive saves under the training loop's
fixed default label — the second save overwrites the artifact the first
one wrote, so a written checkpoint is not immutable and history is not
preserved. -/
theorem checkpoint_overwritten :
    storeRead
        (save_checkpoint cfgEx agentEx2
          (save_checkpoint cfgEx agentEx emptyStore "checkpoint.pth.tar" false)
          "checkpoint.pth.tar" false)
        (cfgEx.checkpoint_dir ++ "checkpoint.pth.tar") = some (checkpointOf agentEx2) ∧
    checkpointOf agentEx2 ≠ checkpointOf agentEx := by
  constructor
  · simp [save_checkpoint, storeWrite, storeRead]
  · decide

/-- C8 amended: `save_checkpoint` writes the checkpoint under
`checkpoint_dir ++ file_name`, replacing whatever artifact was stored
under that label (the training loop always passes the default label, so
successive epoch saves overwrite one another); artifacts under any other
label are untouched; when the save is marked best, the artifact is
additionally copied to the fixed best name, overwriting any previous
best. -/
theorem save_overwrite_semantics (cfg : Config) (st : AgentState) (store : Store)
    (file_name k : String)
    (hk : k ≠ cfg.checkpoint_dir ++ file_name) (hb : k ≠ cfg.checkpoint_dir ++ best_name) :
    storeRead (save_checkpoint cfg st store file_name false) (cfg.checkpoint_dir ++ file_name)
        = some (checkpointOf st) ∧
    storeRead (save_checkpoint cfg st store file_name true) (cfg.checkpoint_dir ++ file_name)
        = some (checkpointOf st) ∧
    storeRead (save_checkpoint cfg st store file_name true) (cfg.checkpoint_dir ++ best_name)
        = some (checkpointOf st) ∧
    storeRead (save_checkpoint cfg st store file_name false) k = storeRead store k ∧
    storeRead (save_checkpoint cfg st store file_name true) k = storeRead store k := by
  refine ⟨?_, ?_, ?_, ?_, ?_⟩ <;>
    simp [save_checkpoint, copyfile, storeWrite, storeRead, hk, hb]

/-- C8 amended, witness at concrete states, labels and an unrelated key. -/
theorem save_overwrite_semantics_witness :
    ("other" ≠ cfgEx.checkpoint_dir ++ "checkpoint.pth.tar") ∧
    ("other" ≠ cfgEx.checkpoint_dir ++ best_name) ∧
    (storeRead (save_checkpoint cfgEx agentEx emptyStore "checkpoint.pth.tar" false)
        (cfgEx.checkpoint_dir ++ "checkpoint.pth.tar") = some (checkpointOf agentEx) ∧
     storeRead (save_checkpoint cfgEx agentEx emptyStore "checkpoint.pth.tar" true)
        (cfgEx.checkpoint_dir ++ "checkpoint.pth.tar") = some (checkpointOf agentEx) ∧
     storeRead (save_checkpoint cfgEx agentEx emptyStore "checkpoint.pth.tar" true)
        (cfgEx.checkpoint_dir ++ best_name) = some (checkpointOf agentEx) ∧
     storeRead (save_checkpoint cfgEx agentEx emptyStore "checkpoint.pth.tar" false) "other"
        = storeRead emptyStore "other" ∧
     storeRead (save_checkpoint cfgEx agentEx emptyStore "checkpoint.pth.tar" true) "other"
        = storeRead emptyStore "other") :=
  ⟨by decide, by decide,
   save_overwrite_semantics cfgEx agentEx emptyStore "checkpoint.pth.tar" "other"
     (by decide) (by decide)⟩

/-- Lifecycle-level effects in program order: the epoch-counter
assignment at the top of the loop body, the data-loader rebuild, the
scalar emissions and image artifact of each batch, the progress log, the
checkpoint writes, and the finalization effects. -/
inductive FEvent
  | setEpoch (epoch : Nat)
  | getLoader
  | addScalar (series : String) (value : Scalar) (step : Nat)
  | saveImage (batch epoch : Nat)
  | logProgress
  | saveCkpt (path : String) (c : Checkpoint)
  | exportScalars
  | closeWriter
  | loaderFinalize
  | logCtrlC
  deriving DecidableEq, Repr

/-- Body of the batch loop of `train_one_epoch` (lines 154-242): transfer
the three tensors and the two fresh draws with `to_var`, run the
generator/discriminator update, increment the iteration counter, emit the
three scalars keyed by the new counter, save the generated image and log
progress.  Returns the new iteration counter and the batch's events. -/
def batchBody (cudaAvailable : Bool) (env : Env) (cfg : Config)
    (epoch curr_it iteration : Nat) (b : BatchRec) : Except PyError (Nat × List FEvent) := do
  let (_data_input_low, _batchsize) ← to_var cudaAvailable ⟨b.lr, Device.cpu⟩
  let (data_input_high, _) ← to_var cudaAvailable ⟨b.hr, Device.cpu⟩
  let (data_input_high_low, _) ← to_var cudaAvailable ⟨b.hlr, Device.cpu⟩
  let (y, _) ← to_var cudaAvailable ⟨env.randn_y curr_it b.lr.length, Device.cpu⟩
  let (noise, _) ← to_var cudaAvailable ⟨env.randn_noise curr_it b.hr.length, Device.cpu⟩
  let r := gdUpdate env cfg.alpha cfg.beta data_input_high.data data_input_high_low.data
    y.data noise.data
  let iteration1 := iteration + 1
  pure (iteration1,
    [FEvent.addScalar "epoch/Generator_loss" r.loss_G iteration1,
     FEvent.addScalar "epoch/Discriminator_loss_real" r.loss_D_real iteration1,
     FEvent.addScalar "epoch/Discriminator_loss_fake" r.loss_D_fake iteration1,
     FEvent.saveImage curr_it epoch,
     FEvent.logProgress])

/-- The batch loop of `train_one_epoch`, threading the batch index and
the iteration counter through the loader's batches; a raise inside a
batch aborts the epoch. -/
def epochBatches (cudaAvailable : Bool) (env : Env) (cfg : Config) (epoch : Nat) :
    Nat → Nat → List BatchRec → Except PyError (Nat × List FEvent)
  | _, iteration, [] => Except.ok (iteration, [])
  | curr_it, iteration, b :: bs =>
    match batchBody cudaAvailable env cfg epoch curr_it iteration b with
    | Except.error e => Except.error e
    | Except.ok (it1, evs) =>
      match epochBatches cudaAvailable env cfg epoch (curr_it + 1) it1 bs with
      | Except.error e => Except.error e
      | Except.ok (it2, evs2) => Except.ok (it2, evs ++ evs2)

/-- `train_one_epoch` (lines 146-242): rebuild the data loader, then run
the batch loop over its batches. -/
def train_one_epoch (cudaAvailable : Bool) (env : Env) (cfg : Config)
    (epoch iteration : Nat) : Except PyError (Nat × List FEvent) :=
  match epochBatches cudaAvailable env cfg epoch 0 iteration env.batches with
  | Except.error e => Except.error e
  | Except.ok (it1, evs) => Except.ok (it1, FEvent.getLoader :: evs)

/-- The epoch loop of `train` (lines 134-138) over an explicit list of
epoch indices: assign `current_epoch`, run the epoch, then save a
checkpoint under the default label. -/
def trainGo (cudaAvailable : Bool) (env : Env) (cfg : Config) :
    List Nat → AgentState → Store → Except PyError (AgentState × Store × List FEvent)
  | [], st, store => Except.ok (st, store, [])
  | e :: es, st, store =>
    let st1 := { st with current_epoch := e }
    match train_one_epoch cudaAvailable env cfg e st1.current_iteration with
    | Except.error err => Except.error err
    | Except.ok (it1, evs) =>
      let st2 := { st1 with current_iteration := it1 }
      let store2 := save_checkpoint cfg st2 store "checkpoint.pth.tar" false
      match trainGo cudaAvailable env cfg es st2 store2 with
      | Except.error err => Except.error err
      | Except.ok (st3, store3, evs3) =>
        Except.ok (st3, store3,
          FEvent.setEpoch e :: evs
            ++ FEvent.saveCkpt (cfg.checkpoint_dir ++ "checkpoint.pth.tar") (checkpointOf st2) :: evs3)

/-- `train` (lines 134-138): `for epoch in range(self.current_epoch,
self.config.max_epoch)`. -/
def train (cudaAvailable : Bool) (env : Env) (cfg : Config)
    (st : AgentState) (store : Store) : Except PyError (AgentState × Store × List FEvent) :=
  trainGo cudaAvailable env cfg
    (List.range' st.current_epoch (cfg.max_epoch - st.current_epoch)) st store

/-- The event trace of a training run; a run that raised out of the loop
contributes the events before the raise (truncated to none here, which is
enough for the lifecycle claims, all about events that never occur). -/
def trainEventsOf : Except PyError (AgentState × Store × List FEvent) → List FEvent
  | Except.ok (_, _, evs) => evs
  | Except.error _ => []

/-- `run` (lines 124-132): call `train` inside a `try`; a
KeyboardInterrupt arriving after `k` effects truncates the trace and is
caught and logged — nothing further runs.  `run` never calls
`finalize`. -/
def runEvents (cudaAvailable : Bool) (env : Env) (cfg : Config)
    (st : AgentState) (store : Store) : Option Nat → List FEvent
  | some k => (trainEventsOf (train cudaAvailable env cfg st store)).take k ++ [FEvent.logCtrlC]
  | none => trainEventsOf (train cudaAvailable env cfg st store)

/-- Modelled from the spec: `BaseAgent.__init__` (file `base.py`, not
part of the sources) is configuration/logging boilerplate treated as out
of scope by the spec (section 1) and assigns no data-loader attribute.
The fields below are exactly the mutable fields `HighToLow.__init__`
(lines 41-57) assigns before loading the checkpoint; `dataloader` is
`none` because no constructor assigns it — the loader of
`train_one_epoch` is a local variable (line 147). -/
def initState (seed : Nat) (g d og od : Scalar) : AgentState where
  current_epoch := 0
  current_iteration := 0
  manual_seed := seed
  netG_params := g
  netD_params := d
  optimG_state := og
  optimD_state := od
  dataloader := none

/-- Agent construction (`__init__`, lines 23-84): initialize the fields,
then `load_checkpoint(self.config.checkpoint_file)`. -/
def mkAgent (seed : Nat) (g d og od : Scalar) (outcome : ReadOutcome) :
    Except PyError AgentState :=
  load_checkpoint (initState seed g d og od) outcome

/-- The module entry point (lines 258-261): construct the agent and call
`run()`; nothing else is invoked — in particular `finalize()` is not. -/
def mainEvents (cudaAvailable : Bool) (env : Env) (cfg : Config)
    (seed : Nat) (g d og od : Scalar) (outcome : ReadOutcome) (store : Store)
    (interruptAt : Option Nat) : List FEvent :=
  match mkAgent seed g d og od outcome with
  | Except.ok st => runEvents cudaAvailable env cfg st store interruptAt
  | Except.error _ => []

/-- `finalize` (lines 247-256): save a checkpoint, export the scalars,
close the writer, then evaluate `self.dataloader.finalize()` — the
attribute access raises AttributeError when the agent has no `dataloader`
attribute, after the first three effects and before any loader release. -/
def finalize (cfg : Config) (st : AgentState) (store : Store) :
    Store × List FEvent × Option PyError :=
  let store1 := save_checkpoint cfg st store "checkpoint.pth.tar" false
  let evs := [FEvent.saveCkpt (cfg.checkpoint_dir ++ "checkpoint.pth.tar") (checkpointOf st),
              FEvent.exportScalars, FEvent.closeWriter]
  match st.dataloader with
  | none => (store1, evs, some PyError.attributeError)
  | some _ => (store1, evs ++ [FEvent.loaderFinalize], none)

/-- The five effects of one successful batch: the three scalar emissions
keyed by the incremented counter, the image artifact and the progress
log. -/
def batchEvents (env : Env) (cfg : Config) (epoch curr_it iteration : Nat) (b : BatchRec) :
    List FEvent :=
  [FEvent.addScalar "epoch/Generator_loss"
      (gdUpdate env cfg.alpha cfg.beta b.hr b.hlr (env.randn_y curr_it b.lr.length)
        (env.randn_noise curr_it b.hr.length)).loss_G (iteration + 1),
   FEvent.addScalar "epoch/Discriminator_loss_real"
      (gdUpdate env cfg.alpha cfg.beta b.hr b.hlr (env.randn_y curr_it b.lr.length)
        (env.randn_noise curr_it b.hr.length)).loss_D_real (iteration + 1),
   FEvent.addScalar "epoch/Discriminator_loss_fake"
      (gdUpdate env cfg.alpha cfg.beta b.hr b.hlr (env.randn_y curr_it b.lr.length)
        (env.randn_noise curr_it b.hr.length)).loss_D_fake (iteration + 1),
   FEvent.saveImage curr_it epoch,
   FEvent.logProgress]

/-- Helper: with CUDA available, the batch body succeeds and produces the
incremented counter and its five effects. -/
theorem batchBody_true (env : Env) (cfg : Config) (epoch curr_it iteration : Nat) (b : BatchRec) :
    batchBody true env cfg epoch curr_it iteration b =
      Except.ok (iteration + 1, batchEvents env cfg epoch curr_it iteration b) := rfl

/-- Helper: without CUDA the first batch transfer raises, so the batch
body fails. -/
theorem batchBody_false (env : Env) (cfg : Config) (epoch curr_it iteration : Nat) (b : BatchRec) :
    batchBody false env cfg epoch curr_it iteration b = Except.error PyError.cudaRuntimeError := rfl

/-- Events a batch body can emit. -/
def batchEvent : FEvent → Bool
  | FEvent.addScalar _ _ _ => true
  | FEvent.saveImage _ _ => true
  | FEvent.logProgress => true
  | _ => false

/-- The epoch index carried by a `setEpoch` event. -/
def setEpochOf : FEvent → Option Nat
  | FEvent.setEpoch e => some e
  | _ => none

/-- The epoch recorded inside a saved checkpoint event. -/
def savedEpochOf : FEvent → Option Nat
  | FEvent.saveCkpt _ c => some c.epoch
  | _ => none

/-- Series name and step key of an `addScalar` event. -/
def scalarOf : FEvent → Option (String × Nat)
  | FEvent.addScalar series _ step => some (series, step)
  | _ => none

/-- Helper: batch-level events mark no epoch, save no checkpoint. -/
theorem batchEvent_no_epoch (ev : FEvent) (h : batchEvent ev = true) :
    setEpochOf ev = none ∧ savedEpochOf ev = none := by
  cases ev <;> simp_all [batchEvent, setEpochOf, savedEpochOf]

/-- Helper: the five batch effects are batch-level events. -/
theorem batchEvents_are_batch (env : Env) (cfg : Config)
    (epoch curr_it iteration : Nat) (b : BatchRec) :
    ∀ ev ∈ batchEvents env cfg epoch curr_it iteration b, batchEvent ev = true := by
  intro ev hev
  simp only [batchEvents, List.mem_cons, List.not_mem_nil, or_false] at hev
  rcases hev with rfl | rfl | rfl | rfl | rfl <;> rfl

/-- Helper: every event of a successful batch body is batch-level. -/
theorem batchBody_events (cav : Bool) (env : Env) (cfg : Config)
    (epoch curr_it iteration : Nat) (b : BatchRec) (out : Nat × List FEvent)
    (h : batchBody cav env cfg epoch curr_it iteration b = Except.ok out) :
    ∀ ev ∈ out.2, batchEvent ev = true := by
  cases cav
  · rw [batchBody_false] at h
    exact absurd h (by simp)
  · rw [batchBody_true] at h
    injection h with h
    subst h
    exact batchEvents_are_batch env cfg epoch curr_it iteration b

/-- Helper: every event of a successful batch loop is batch-level. -/
theorem epochBatches_events (cav : Bool) (env : Env) (cfg : Config) (epoch : Nat) :
    ∀ (bs : List BatchRec) (curr_it iteration : Nat) (out : Nat × List FEvent),
      epochBatches cav env cfg epoch curr_it iteration bs = Except.ok out →
      ∀ ev ∈ out.2, batchEvent ev = true := by
  intro bs
  induction bs with
  | nil =>
    intro curr_it iteration out h
    simp only [epochBatches] at h
    injection h with h
    subst h
    intro ev hev
    exact absurd hev (by simp)
  | cons b bs ih =>
    intro curr_it iteration out h
    cases hb : batchBody cav env cfg epoch curr_it iteration b with
    | error e =>
      simp only [epochBatches, hb] at h
      exact absurd h (by simp)
    | ok p =>
      obtain ⟨it1, evs1⟩ := p
      cases hr : epochBatches cav env cfg epoch (curr_it + 1) it1 bs with
      | error e =>
        simp only [epochBatches, hb, hr] at h
        exact absurd h (by simp)
      | ok q =>
        obtain ⟨it2, evs2⟩ := q
        simp only [epochBatches, hb, hr] at h
        injection h with h
        subst h
        intro ev hev
        rcases List.mem_append.mp hev with hev | hev
        · exact batchBody_events cav env cfg epoch curr_it iteration b (it1, evs1) hb ev hev
        · exact ih (curr_it + 1) it1 (it2, evs2) hr ev hev

/-- Helper: with CUDA available the batch loop succeeds, incrementing the
iteration counter once per batch. -/
theorem epochBatches_true_ok (env : Env) (cfg : Config) (epoch : Nat) :
    ∀ (bs : List BatchRec) (curr_it iteration : Nat),
      ∃ evs, epochBatches true env cfg epoch curr_it iteration bs =
          Except.ok (iteration + bs.length, evs) ∧
        ∀ ev ∈ evs, batchEvent ev = true := by
  intro bs
  induction bs with
  | nil =>
    intro curr_it iteration
    exact ⟨[], by simp [epochBatches], by simp⟩
  | cons b bs ih =>
    intro curr_it iteration
    obtain ⟨evs, h1, h2⟩ := ih (curr_it + 1) (iteration + 1)
    refine ⟨batchEvents env cfg epoch curr_it iteration b ++ evs, ?_, ?_⟩
    · have hlen : iteration + 1 + bs.length = iteration + (bs.length + 1) := by omega
      simp only [epochBatches, batchBody_true, h1, List.length_cons, hlen]
    · intro ev hev
      rcases List.mem_append.mp hev with hev | hev
      · exact batchEvents_are_batch env cfg epoch curr_it iteration b ev hev
      · exact h2 ev hev

/-- Helper: with CUDA available the epoch loop succeeds; its trace marks
exactly the given epochs, saves exactly one checkpoint per epoch carrying
that epoch, and the loop leaves the `dataloader` attribute untouched. -/
theorem trainGo_true_ok (env : Env) (cfg : Config) :
    ∀ (es : List Nat) (st : AgentState) (store : Store),
      ∃ st2 store2 evs, trainGo true env cfg es st store = Except.ok (st2, store2, evs) ∧
        evs.filterMap setEpochOf = es ∧
        evs.filterMap savedEpochOf = es ∧
        st2.dataloader = st.dataloader := by
  intro es
  induction es with
  | nil =>
    intro st store
    exact ⟨st, store, [], rfl, rfl, rfl, rfl⟩
  | cons e es ih =>
    intro st store
    obtain ⟨evs, h1, h2⟩ := epochBatches_true_ok env cfg e env.batches 0 st.current_iteration
    obtain ⟨st2, store2, evs3, h3, h4, h5, h6⟩ :=
      ih { st with current_epoch := e, current_iteration := st.current_iteration + env.batches.length }
        (save_checkpoint cfg
          { st with current_epoch := e, current_iteration := st.current_iteration + env.batches.length }
          store "checkpoint.pth.tar" false)
    have hset : List.filterMap setEpochOf evs = [] := by
      rw [List.filterMap_eq_nil_iff]
      intro ev hev
      exact (batchEvent_no_epoch ev (h2 ev hev)).1
    have hsave : List.filterMap savedEpochOf evs = [] := by
      rw [List.filterMap_eq_nil_iff]
      intro ev hev
      exact (batchEvent_no_epoch ev (h2 ev hev)).2
    refine ⟨st2, store2,
      FEvent.setEpoch e :: (FEvent.getLoader :: evs)
        ++ FEvent.saveCkpt (cfg.checkpoint_dir ++ "checkpoint.pth.tar")
            (checkpointOf
              { st with current_epoch := e,
                        current_iteration := st.current_iteration + env.batches.length }) :: evs3,
      ?_, ?_, ?_, ?_⟩
    · simp only [trainGo, train_one_epoch, h1, h3]
    · simp [List.filterMap_cons, List.filterMap_append, setEpochOf, hset, h4]
    · simp [List.filterMap_cons, List.filterMap_append, savedEpochOf, hsave, h5, checkpointOf]
    · simpa using h6

/-- C3: a resumed run whose loaded checkpoint was saved at epoch `E`
re-executes epoch `E` itself: the loop marks exactly the epochs of
`[E, max_epoch)`, the first epoch it runs is `E` (not `E + 1`), and after
each epoch's batches it saves a checkpoint recording that epoch. -/
theorem resume_restarts_at_saved_epoch (env : Env) (cfg : Config) (st0 : AgentState)
    (c : Checkpoint) (store : Store) (h : c.epoch < cfg.max_epoch) :
    ∃ st2 store2 evs,
      train true env cfg (applyCheckpoint st0 c) store = Except.ok (st2, store2, evs) ∧
      evs.filterMap setEpochOf = List.range' c.epoch (cfg.max_epoch - c.epoch) ∧
      (evs.filterMap setEpochOf).head? = some c.epoch ∧
      evs.filterMap savedEpochOf = List.range' c.epoch (cfg.max_epoch - c.epoch) := by
  obtain ⟨st2, store2, evs, h1, h2, h3, _⟩ :=
    trainGo_true_ok env cfg (List.range' c.epoch (cfg.max_epoch - c.epoch))
      (applyCheckpoint st0 c) store
  refine ⟨st2, store2, evs, h1, h2, ?_, h3⟩
  rw [h2]
  obtain ⟨n, hn⟩ : ∃ n, cfg.max_epoch - c.epoch = n + 1 :=
    ⟨cfg.max_epoch - c.epoch - 1, by omega⟩
  rw [hn, List.range'_succ]
  rfl

/-- A checkpoint recorded at epoch 0 and a configuration for witnesses. -/
def ckptEx : Checkpoint where
  epoch := 0
  iteration := 0
  G_state_dict := 0
  G_optimizer := 0
  D_state_dict := 0
  D_optimizer := 0
  manual_seed := 0

/-- C3 witness: resuming at the concrete checkpoint of epoch 0 with
`max_epoch = 2` satisfies the hypothesis and the conclusion. -/
theorem resume_restarts_at_saved_epoch_witness :
    ckptEx.epoch < cfgEx.max_epoch ∧
    (∃ st2 store2 evs,
      train true envEx cfgEx (applyCheckpoint agentEx ckptEx) emptyStore =
          Except.ok (st2, store2, evs) ∧
      evs.filterMap setEpochOf = List.range' ckptEx.epoch (cfgEx.max_epoch - ckptEx.epoch) ∧
      (evs.filterMap setEpochOf).head? = some ckptEx.epoch ∧
      evs.filterMap savedEpochOf = List.range' ckptEx.epoch (cfgEx.max_epoch - ckptEx.epoch)) :=
  ⟨by decide, resume_restarts_at_saved_epoch envEx cfgEx agentEx ckptEx emptyStore (by decide)⟩

/-- Events that can occur while the training loop or the interrupt
handler runs — everything except the three finalization effects. -/
def duringRun : FEvent → Bool
  | FEvent.exportScalars => false
  | FEvent.closeWriter => false
  | FEvent.loaderFinalize => false
  | _ => true

/-- Helper: batch-level events are not finalization effects. -/
theorem batchEvent_duringRun (ev : FEvent) (h : batchEvent ev = true) : duringRun ev = true := by
  cases ev <;> simp_all [batchEvent, duringRun]

/-- Helper: every event of a successful epoch is not a finalization
effect. -/
theorem train_one_epoch_events (cav : Bool) (env : Env) (cfg : Config)
    (epoch iteration : Nat) (out : Nat × List FEvent)
    (h : train_one_epoch cav env cfg epoch iteration = Except.ok out) :
    ∀ ev ∈ out.2, duringRun ev = true := by
  cases heb : epochBatches cav env cfg epoch 0 iteration env.batches with
  | error e =>
    simp only [train_one_epoch, heb] at h
    exact absurd h (by simp)
  | ok p =>
    obtain ⟨it1, evs1⟩ := p
    simp only [train_one_epoch, heb] at h
    injection h with h
    subst h
    intro ev hev
    rcases List.mem_cons.mp hev with rfl | hev
    · rfl
    · exact batchEvent_duringRun ev
        (epochBatches_events cav env cfg epoch env.batches 0 iteration (it1, evs1) heb ev hev)

/-- Helper: every event of the epoch loop is not a finalization effect. -/
theorem trainGo_events (cav : Bool) (env : Env) (cfg : Config) :
    ∀ (es : List Nat) (st : AgentState) (store : Store)
      (out : AgentState × Store × List FEvent),
      trainGo cav env cfg es st store = Except.ok out →
      ∀ ev ∈ out.2.2, duringRun ev = true := by
  intro es
  induction es with
  | nil =>
    intro st store out h
    simp only [trainGo] at h
    injection h with h
    subst h
    intro ev hev
    exact absurd hev (by simp)
  | cons e es ih =>
    intro st store out h
    cases hte : train_one_epoch cav env cfg e st.current_iteration with
    | error err =>
      simp only [trainGo, hte] at h
      exact absurd h (by simp)
    | ok p =>
      obtain ⟨it1, evs1⟩ := p
      cases hgo : trainGo cav env cfg es
          { st with current_epoch := e, current_iteration := it1 }
          (save_checkpoint cfg { st with current_epoch := e, current_iteration := it1 }
            store "checkpoint.pth.tar" false) with
      | error err =>
        simp only [trainGo, hte, hgo] at h
        exact absurd h (by simp)
      | ok q =>
        obtain ⟨st3, store3, evs3⟩ := q
        simp only [trainGo, hte, hgo] at h
        injection h with h
        subst h
        intro ev hev
        rcases List.mem_cons.mp hev with rfl | hev
        · rfl
        · rcases List.mem_append.mp hev with hev | hev
          · exact train_one_epoch_events cav env cfg e st.current_iteration (it1, evs1) hte ev hev
          · rcases List.mem_cons.mp hev with rfl | hev
            · rfl
            · exact ih _ _ (st3, store3, evs3) hgo ev hev

/-- C6: finalization never happens.  The entry point constructs the agent
and calls `run()`, which either completes training or swallows the
interrupt — in every case the produced trace contains no metric export,
no reporter shutdown and no data-loader release (and `finalize`, had it
been called, raises before reaching the loader, see the C10 theorem). -/
theorem run_skips_finalization (cudaAvailable : Bool) (env : Env) (cfg : Config)
    (seed : Nat) (g d og od : Scalar) (outcome : ReadOutcome) (store : Store)
    (interruptAt : Option Nat) :
    FEvent.exportScalars ∉ mainEvents cudaAvailable env cfg seed g d og od outcome store interruptAt ∧
    FEvent.closeWriter ∉ mainEvents cudaAvailable env cfg seed g d og od outcome store interruptAt ∧
    FEvent.loaderFinalize ∉ mainEvents cudaAvailable env cfg seed g d og od outcome store interruptAt := by
  have key : ∀ ev ∈ mainEvents cudaAvailable env cfg seed g d og od outcome store interruptAt,
      duringRun ev = true := by
    intro ev hev
    unfold mainEvents at hev
    cases hmk : mkAgent seed g d og od outcome with
    | error e =>
      rw [hmk] at hev
      exact absurd hev (by simp)
    | ok st =>
      rw [hmk] at hev
      have htrain : ∀ ev2 ∈ trainEventsOf (train cudaAvailable env cfg st store),
          duringRun ev2 = true := by
        intro ev2 hev2
        cases htr : train cudaAvailable env cfg st store with
        | error e =>
          rw [htr] at hev2
          exact absurd hev2 (by simp [trainEventsOf])
        | ok out =>
          rw [htr] at hev2
          simp only [trainEventsOf] at hev2
          exact trainGo_events cudaAvailable env cfg
            (List.range' st.current_epoch (cfg.max_epoch - st.current_epoch)) st store out
            htr ev2 hev2
      cases interruptAt with
      | none => exact htrain ev hev
      | some k =>
        simp only [runEvents] at hev
        rcases List.mem_append.mp hev with hev | hev
        · exact htrain ev (List.take_subset k _ hev)
        · rcases List.mem_cons.mp hev with rfl | hev
          · rfl
          · exact absurd hev (by simp)
  refine ⟨fun h => ?_, fun h => ?_, fun h => ?_⟩ <;> simpa [duringRun] using key _ h

/-- Count of scalar emissions of one batch body. -/
def batchScalarCount (r : Except PyError (Nat × List FEvent)) : Nat :=
  match r with
  | Except.ok (_, evs) =>
    evs.countP (fun ev => match ev with | FEvent.addScalar _ _ _ => true | _ => false)
  | Except.error _ => 0

/-- C7 counterexample: a concrete processed batch emits exactly three
scalars to the reporter — the generator total, the discriminator real and
the discriminator fake losses — not all six (the adversarial, pixel and
discriminator-total losses go only to the console log). -/
theorem three_not_six_scalars :
    batchScalarCount (batchBody true envEx cfgEx 0 0 0 ⟨[1], [1], [1]⟩) = 3 ∧
    batchScalarCount (batchBody true envEx cfgEx 0 0 0 ⟨[1], [1], [1]⟩) ≠ 6 := by
  constructor
  · rfl
  · decide

/-- C7 amended: after every processed batch the global iteration counter
is incremented by exactly one, and exactly three scalar losses — the
generator total, the discriminator real and the discriminator fake — are
emitted to the reporter, each keyed by the new iteration value. -/
theorem batch_metrics_emission (env : Env) (cfg : Config)
    (epoch curr_it iteration : Nat) (b : BatchRec) :
    ∃ evs, batchBody true env cfg epoch curr_it iteration b = Except.ok (iteration + 1, evs) ∧
      evs.filterMap scalarOf =
        [("epoch/Generator_loss", iteration + 1),
         ("epoch/Discriminator_loss_real", iteration + 1),
         ("epoch/Discriminator_loss_fake", iteration + 1)] := by
  refine ⟨batchEvents env cfg epoch curr_it iteration b,
    batchBody_true env cfg epoch curr_it iteration b, ?_⟩
  simp [batchEvents, scalarOf, List.filterMap_cons]

/-- Helper: the epoch loop never assigns a `dataloader` attribute, for
either device outcome. -/
theorem trainGo_dataloader (cav : Bool) (env : Env) (cfg : Config) :
    ∀ (es : List Nat) (st : AgentState) (store : Store)
      (st2 : AgentState) (store2 : Store) (evs : List FEvent),
      trainGo cav env cfg es st store = Except.ok (st2, store2, evs) →
      st2.dataloader = st.dataloader := by
  intro es
  induction es with
  | nil =>
    intro st store st2 store2 evs h
    simp only [trainGo, Except.ok.injEq, Prod.mk.injEq] at h
    obtain ⟨rfl, -, -⟩ := h
    rfl
  | cons e es ih =>
    intro st store st2 store2 evs h
    cases hte : train_one_epoch cav env cfg e st.current_iteration with
    | error err =>
      simp only [trainGo, hte] at h
      exact absurd h (by simp)
    | ok p =>
      obtain ⟨it1, evs1⟩ := p
      cases hgo : trainGo cav env cfg es
          { st with current_epoch := e, current_iteration := it1 }
          (save_checkpoint cfg { st with current_epoch := e, current_iteration := it1 }
            store "checkpoint.pth.tar" false) with
      | error err =>
        simp only [trainGo, hte, hgo] at h
        exact absurd h (by simp)
      | ok q =>
        obtain ⟨st3, store3, evs3⟩ := q
        simp only [trainGo, hte, hgo, Except.ok.injEq, Prod.mk.injEq] at h
        obtain ⟨rfl, -, -⟩ := h
        simpa using ih _ _ st3 store3 evs3 hgo

/-- C10: on every run — whatever the checkpoint-load outcome at
construction and however training ended — calling `finalize()` saves the
final checkpoint, exports the metrics and closes the summary writer, and
then raises AttributeError at `self.dataloader.finalize()`: no
constructor or training step ever assigns a `dataloader` attribute (the
loader of `train_one_epoch` is a local variable), so the loader-release
hook is unreachable. -/
theorem finalize_attribute_error (cfg : Config) (env : Env) (cudaAvailable : Bool)
    (seed : Nat) (g d og od : Scalar) (outcome : ReadOutcome)
    (st : AgentState) (store : Store) (st2 : AgentState) (store2 : Store) (evs : List FEvent)
    (h1 : mkAgent seed g d og od outcome = Except.ok st)
    (h2 : train cudaAvailable env cfg st store = Except.ok (st2, store2, evs)) :
    finalize cfg st2 store2 =
      (save_checkpoint cfg st2 store2 "checkpoint.pth.tar" false,
       [FEvent.saveCkpt (cfg.checkpoint_dir ++ "checkpoint.pth.tar") (checkpointOf st2),
        FEvent.exportScalars, FEvent.closeWriter],
       some PyError.attributeError) := by
  have hd : st.dataloader = none := by
    cases outcome with
    | found c =>
      simp only [mkAgent, load_checkpoint, Except.ok.injEq] at h1
      subst h1
      rfl
    | fileNotFound =>
      simp only [mkAgent, load_checkpoint, Except.ok.injEq] at h1
      subst h1
      rfl
    | permissionDenied =>
      simp only [mkAgent, load_checkpoint, Except.ok.injEq] at h1
      subst h1
      rfl
    | corruptFile =>
      exact absurd h1 (by simp [mkAgent, load_checkpoint])
  have h2go : trainGo cudaAvailable env cfg
      (List.range' st.current_epoch (cfg.max_epoch - st.current_epoch)) st store =
      Except.ok (st2, store2, evs) := h2
  have hd2 : st2.dataloader = none := by
    rw [trainGo_dataloader cudaAvailable env cfg _ st store st2 store2 evs h2go, hd]
  simp [finalize, hd2]

/-- A configuration that makes the epoch loop empty, for the witness. -/
def cfgZero : Config where
  max_epoch := 0
  checkpoint_dir := "ckpt/"
  checkpoint_file := "checkpoint.pth.tar"
  alpha := 1
  beta := 1

/-- C10 witness: a concrete fresh agent (no checkpoint found) with an
empty epoch loop. -/
theorem finalize_attribute_error_witness :
    finalize cfgZero (initState 0 0 0 0 0) emptyStore =
      (save_checkpoint cfgZero (initState 0 0 0 0 0) emptyStore "checkpoint.pth.tar" false,
       [FEvent.saveCkpt (cfgZero.checkpoint_dir ++ "checkpoint.pth.tar")
          (checkpointOf (initState 0 0 0 0 0)),
        FEvent.exportScalars, FEvent.closeWriter],
       some PyError.attributeError) :=
  finalize_attribute_error cfgZero envEx true 0 0 0 0 0 ReadOutcome.fileNotFound
    (initState 0 0 0 0 0) emptyStore (initState 0 0 0 0 0) emptyStore [] rfl rfl

end HighToLow
